import Mathlib

/-!
The shell-local provisioner.

A shallow embedding of `provisioner/shell-local/provisioner.go`: the
configuration record, `Prepare` (normalisation of the configuration),
`Provision` (running the command through a communicator) and `Cancel`.

Go slices are `Option (List String)`: `none` is the nil slice and `some l`
a non-nil slice, so that an explicitly empty sequence `some []` and an absent
one `none` are different inputs. Collaborators that live outside the file
(`config.Decode`, `RemoteCmd.StartWithUi`, `runtime.GOOS`) are parameters.
-/

namespace ShellLocal

/-! ## Data model -/

/-- Modelled from the spec: `interpolate.Context`, the template-rendering
context used only by the external interpolation collaborator. Its declaration
is outside the file; only its identity matters here. -/
structure Context where
  UserVariables : List (String × String)
  deriving DecidableEq, Repr

/-- Modelled from the spec: `common.PackerConfig`, the squashed block of
host-driver settings. Its declaration is outside the file; no rule reads it. -/
structure PackerConfig where
  PackerBuildName : String
  deriving DecidableEq, Repr

/-- The record `Config` of the source. -/
structure Config where
  PackerConfig : PackerConfig
  Command : String
  Inline : Option (List String)
  ExecuteCommand : Option (List String)
  ctx : Context
  deriving DecidableEq, Repr

/-- The record `Provisioner` of the source. -/
structure Provisioner where
  config : Config
  deriving DecidableEq, Repr

/-- Modelled from the spec: `packer.MultiError`, the aggregated multi-error
that collects every rule violation; `Errors` holds the collected errors by
message. -/
structure MultiError where
  Errors : List String
  deriving DecidableEq, Repr

/-- A Go `error` value: either a plain error carrying its message
(`errors.New`, `fmt.Errorf`) or a `*packer.MultiError`. -/
inductive GoError where
  | errorString (msg : String)
  | multiError (m : MultiError)
  deriving DecidableEq, Repr

/-- Modelled from the spec: `config.DecodeOpts` together with the
`interpolate.RenderFilter` it carries, the options handed to the decoding
collaborator. -/
structure DecodeOpts where
  Interpolate : Bool
  InterpolateContext : Context
  InterpolateFilterExclude : List String
  deriving DecidableEq, Repr

/-! ## Library functions used by the source -/

/-- Go `len` on a slice: zero for the nil slice. -/
def len (s : Option (List String)) : Nat :=
  match s with
  | none => 0
  | some l => l.length

/-- The elements of a slice, as `range` sees them: none for the nil slice. -/
def elems (s : Option (List String)) : List String :=
  match s with
  | none => []
  | some l => l

/-- Go `strings.Join`: the empty string for no element, the element itself
for one, and otherwise the first element followed by `sep` and the next
element for each remaining one. -/
def stringsJoin (es : List String) (sep : String) : String :=
  match es with
  | [] => ""
  | [x] => x
  | x :: rest => rest.foldl (fun b s => b ++ sep ++ s) x

/-- Go `errors.New`. -/
def errorsNew (msg : String) : GoError := GoError.errorString msg

/-- The text of an error as `MultiErrorAppend` stores it. -/
def errorText : GoError → List String
  | GoError.errorString msg => [msg]
  | GoError.multiError m => m.Errors

/-- Modelled from the spec: `packer.MultiErrorAppend`, which allocates the
multi-error when it is still nil and appends the new error at the end. -/
def MultiErrorAppend (err : Option MultiError) (e : GoError) : Option MultiError :=
  match err with
  | none => some { Errors := errorText e }
  | some m => some { Errors := m.Errors ++ errorText e }

/-- Go `%d` for an `int`: decimal digits, with a leading minus sign for a
negative number. -/
def fmtD (n : Int) : String := toString n

/-! ## Error messages of the source -/

def msgConflictingSource : String := "only command or inline should be specified"

def msgMissingSource : String := "command or inline must be specified"

def msgEmptyExecuteTemplate : String := "execute_command must not be empty"

def defaultWindows : List String := ["cmd", "/C", "\x7b\x7b.Command\x7d\x7d"]

def defaultUnix : List String := ["/bin/sh", "-c", "\x7b\x7b.Command\x7d\x7d"]

/-! ## Prepare -/

/-- The options `Prepare` passes to `config.Decode`. -/
def prepareDecodeOpts (p : Provisioner) : DecodeOpts :=
  { Interpolate := true
    InterpolateContext := p.config.ctx
    InterpolateFilterExclude := ["execute_command"] }

/-- The method `Provisioner.Prepare`. `Decode` is the decoding collaborator
(it fills the configuration in place and may report an error), `GOOS` is
`runtime.GOOS`. The result is the provisioner after the call and the
returned error (`none` is the nil error). -/
def Prepare {Raw : Type}
    (Decode : Config → DecodeOpts → List Raw → Config × Option GoError)
    (GOOS : String) (p : Provisioner) (raws : List Raw) :
    Provisioner × Option GoError :=
  let decoded := Decode p.config (prepareDecodeOpts p) raws
  match decoded.2 with
  | some err => ({ config := decoded.1 }, some err)
  | none =>
    let c0 := decoded.1
    let c1 : Config :=
      if c0.Inline ≠ none ∧ len c0.Inline = 0 then { c0 with Inline := none } else c0
    let errs0 : Option MultiError := none
    let r2 : Config × Option MultiError :=
      if c1.Command = "" ∧ len c1.Inline > 0 then
        ({ c1 with Command := stringsJoin (elems c1.Inline) ";" }, errs0)
      else if c1.Command ≠ "" ∧ len c1.Inline > 0 then
        (c1, MultiErrorAppend errs0 (errorsNew msgConflictingSource))
      else
        (c1, MultiErrorAppend errs0 (errorsNew msgMissingSource))
    let c2 := r2.1
    let errs2 := r2.2
    let c3 : Config :=
      if len c2.ExecuteCommand = 0 then
        if GOOS = "windows" then
          { c2 with ExecuteCommand := some defaultWindows }
        else
          { c2 with ExecuteCommand := some defaultUnix }
      else c2
    let errs3 : Option MultiError :=
      if len c3.ExecuteCommand = 0 then
        MultiErrorAppend errs2 (errorsNew msgEmptyExecuteTemplate)
      else errs2
    match errs3 with
    | some m =>
      if m.Errors.length > 0 then ({ config := c3 }, some (GoError.multiError m))
      else ({ config := c3 }, none)
    | none => ({ config := c3 }, none)

/-! ## Provision and Cancel -/

/-- The local communicator built by `Provision`. -/
structure Communicator where
  Ctx : Context
  ExecuteCommand : Option (List String)
  deriving DecidableEq, Repr

/-- The part of `packer.RemoteCmd` the source uses. -/
structure RemoteCmd where
  Command : String
  ExitStatus : Int
  deriving DecidableEq, Repr

/-- What can be observed of one run: lines said on the UI by the provisioner,
start attempts handed to the communicator, and the output the communicator
streams to the UI. -/
inductive Event where
  | say (msg : String)
  | start (comm : Communicator) (command : String)
  | output (line : String)
  deriving DecidableEq, Repr

/-- The outcome of `RemoteCmd.StartWithUi`: the error of the start call, the
exit status it leaves in the command, the lines it streamed, and the elements
it leaves in the array of the `ExecuteCommand` slice it was handed (a
communicator may write into that slice, for instance to render it). -/
structure StartResult where
  err : Option GoError
  ExitStatus : Int
  streamed : List String
  ExecuteCommand : List String
  deriving DecidableEq, Repr

/-- What a slice holds once code that was handed the same slice has left the
elements `now` in its array: the slice keeps its own length (and stays nil
when it was nil), position by position it holds what is now in the array. -/
def aliased (old : Option (List String)) (now : List String) : Option (List String) :=
  match old with
  | none => none
  | some l => some (now.take l.length ++ l.drop now.length)

def msgExecuting (command : String) : String :=
  "Executing local command: " ++ command

def msgStartFailure (command : String) : String :=
  "Error executing command: " ++ command ++ "\n\n" ++
    "Please see output above for more information."

def msgNonZeroExit (status : Int) (command : String) : String :=
  "Erroneous exit code " ++ fmtD status ++ " while executing command: " ++ command ++
    "\n\n" ++ "Please see output above for more information."

/-- The method `Provisioner.Provision`. `StartWithUi` is the communicator
collaborator. The result is the provisioner after the call, the trace of
observable events in order, and the returned error. The communicator is
handed the `ExecuteCommand` slice of the configuration itself, not a copy, so
after the call the configuration holds whatever the communicator left in it;
`Provision` assigns to no field of the configuration. -/
def Provision (StartWithUi : Communicator → RemoteCmd → StartResult)
    (p : Provisioner) : Provisioner × List Event × Option GoError :=
  let comm : Communicator :=
    { Ctx := p.config.ctx, ExecuteCommand := p.config.ExecuteCommand }
  let cmd : RemoteCmd := { Command := p.config.Command, ExitStatus := 0 }
  let ui : List Event := [Event.say (msgExecuting p.config.Command)]
  let res := StartWithUi comm cmd
  let ui := ui ++ [Event.start comm cmd.Command] ++ res.streamed.map Event.output
  let cmd : RemoteCmd := { cmd with ExitStatus := res.ExitStatus }
  let p : Provisioner :=
    { config := { p.config with
        ExecuteCommand := aliased p.config.ExecuteCommand res.ExecuteCommand } }
  match res.err with
  | some _ => (p, ui, some (GoError.errorString (msgStartFailure p.config.Command)))
  | none =>
    if cmd.ExitStatus ≠ 0 then
      (p, ui, some (GoError.errorString (msgNonZeroExit cmd.ExitStatus p.config.Command)))
    else
      (p, ui, none)

/-- The method `Provisioner.Cancel`: it does nothing. -/
def Cancel (p : Provisioner) : Provisioner := p

/-! ## Stub collaborators used to evaluate the definitions -/

/-- A decoder that stores the given configuration and reports no error. -/
def decodeOk (c : Config) : Config → DecodeOpts → List Unit → Config × Option GoError :=
  fun _ _ _ => (c, none)

/-- A communicator stub that starts and reports the given exit status; it
does not write to the slice it is handed. -/
def stubExit (status : Int) : Communicator → RemoteCmd → StartResult :=
  fun comm _ =>
    { err := none, ExitStatus := status, streamed := [],
      ExecuteCommand := elems comm.ExecuteCommand }

/-- A communicator stub that renders its execute command in place: every
field that is the placeholder for the command becomes the command, and the
rendered fields are written back into the slice it was handed. It then
reports the given exit status. -/
def stubRendersInPlace (status : Int) : Communicator → RemoteCmd → StartResult :=
  fun comm cmd =>
    { err := none, ExitStatus := status, streamed := [],
      ExecuteCommand := (elems comm.ExecuteCommand).map
        (fun field => if field = "\x7b\x7b.Command\x7d\x7d" then cmd.Command else field) }

/-- A configuration with the three recognised keys and nothing else. -/
def mkConfig (command : String) (inline execute : Option (List String)) : Config :=
  { PackerConfig := { PackerBuildName := "" }
    Command := command
    Inline := inline
    ExecuteCommand := execute
    ctx := { UserVariables := [] } }

/-- The provisioner before `Prepare`: Go zero values. -/
def zeroProvisioner : Provisioner := { config := mkConfig "" none none }

/-- A decoder that leaves the given configuration behind and reports the
given error. -/
def decodeFails (c : Config) (e : GoError) :
    Config → DecodeOpts → List Unit → Config × Option GoError :=
  fun _ _ _ => (c, some e)

/-- A communicator stub whose start call fails with the given error, whatever
exit status is left in the command. -/
def stubStartFails (e : GoError) (status : Int) : Communicator → RemoteCmd → StartResult :=
  fun comm _ =>
    { err := some e, ExitStatus := status, streamed := [],
      ExecuteCommand := elems comm.ExecuteCommand }

/-- The events that are lines said by the provisioner. -/
def isSay : Event → Bool
  | Event.say _ => true
  | _ => false

/-- The events that are start attempts. -/
def isStart : Event → Bool
  | Event.start _ _ => true
  | _ => false

/-! ## Auxiliary facts -/

theorem foldl_join_data (sep : String) (xs : List String) (acc : String) :
    (xs.foldl (fun b s => b ++ sep ++ s) acc).data
      = acc.data ++ (xs.map (fun s => sep.data ++ s.data)).flatten := by
  induction xs generalizing acc with
  | nil => simp
  | cons y ys ih => simp [ih, String.data_append, List.append_assoc]

theorem stringsJoin_cons (sep x : String) (xs : List String) :
    stringsJoin (x :: xs) sep = xs.foldl (fun b s => b ++ sep ++ s) x := by
  cases xs <;> simp [stringsJoin]

theorem intercalate_cons_data (sep : List Char) (x : List Char) (xs : List (List Char)) :
    List.intercalate sep (x :: xs) = x ++ (xs.map (fun s => sep ++ s)).flatten := by
  induction xs generalizing x with
  | nil => simp [List.intercalate]
  | cons y ys ih =>
    have h := ih y
    simp only [List.intercalate] at h ⊢
    simp [List.intersperse, h]

theorem stringsJoin_data (sep x : String) (xs : List String) :
    (stringsJoin (x :: xs) sep).data
      = List.intercalate sep.data ((x :: xs).map String.data) := by
  rw [stringsJoin_cons, foldl_join_data, List.map_cons, intercalate_cons_data]
  simp [List.map_map, Function.comp_def]

/-- What `Prepare` computes once decoding has succeeded, by case of the
command and inline fields. -/
theorem Prepare_decoded {Raw : Type}
    (Decode : Config → DecodeOpts → List Raw → Config × Option GoError)
    (GOOS : String) (p : Provisioner) (raws : List Raw) (c : Config)
    (hdec : Decode p.config (prepareDecodeOpts p) raws = (c, none)) :
    Prepare Decode GOOS p raws =
      (let c1 : Config :=
        if c.Inline ≠ none ∧ len c.Inline = 0 then { c with Inline := none } else c
      let r2 : Config × Option MultiError :=
        if c1.Command = "" ∧ len c1.Inline > 0 then
          ({ c1 with Command := stringsJoin (elems c1.Inline) ";" }, none)
        else if c1.Command ≠ "" ∧ len c1.Inline > 0 then
          (c1, some ⟨[msgConflictingSource]⟩)
        else
          (c1, some ⟨[msgMissingSource]⟩)
      let c3 : Config :=
        if len r2.1.ExecuteCommand = 0 then
          { r2.1 with ExecuteCommand := some (if GOOS = "windows" then defaultWindows else defaultUnix) }
        else r2.1
      (({ config := c3 } : Provisioner), r2.2.map GoError.multiError)) := by
  unfold Prepare
  simp only [hdec]
  obtain ⟨pc, cmd, inl, ex, ctx⟩ := c
  have hlen0 : ∀ l : List String, len (some l) = l.length := fun _ => rfl
  have hlenN : len none = 0 := rfl
  have hdw : defaultWindows.length = 3 := rfl
  have hdu : defaultUnix.length = 3 := rfl
  rcases inl with _ | _ | ⟨x, xs⟩ <;> rcases ex with _ | _ | ⟨e, es⟩ <;>
    by_cases hc : cmd = "" <;> by_cases hw : GOOS = "windows" <;>
    simp only [hlen0, hlenN, hdw, hdu, hc, hw, MultiErrorAppend, OfNat.ofNat_ne_zero, Nat.ofNat_pos,
      List.singleton_append, List.nil_append, elems, errorsNew, errorText, List.length_nil,
      List.length_cons, ne_eq, not_true_eq_false, not_false_eq_true, false_and, and_false,
      and_true, true_and, if_true, if_false, gt_iff_lt, lt_self_iff_false, Nat.succ_pos,
      Nat.zero_lt_succ, Nat.succ_ne_zero, reduceCtorEq, Option.map, List.length_singleton,
      Nat.lt_add_one, and_self, Nat.add_one_ne_zero, ite_true, ite_false]

/-- The error `Prepare` returns once decoding has succeeded. -/
theorem Prepare_decoded_err {Raw : Type}
    (Decode : Config → DecodeOpts → List Raw → Config × Option GoError)
    (GOOS : String) (p : Provisioner) (raws : List Raw) (c : Config)
    (hdec : Decode p.config (prepareDecodeOpts p) raws = (c, none)) :
    (Prepare Decode GOOS p raws).2 =
      if c.Command = "" ∧ len c.Inline > 0 then none
      else if c.Command ≠ "" ∧ len c.Inline > 0 then
        some (GoError.multiError { Errors := [msgConflictingSource] })
      else some (GoError.multiError { Errors := [msgMissingSource] }) := by
  rw [Prepare_decoded Decode GOOS p raws c hdec]
  obtain ⟨pc, cmd, inl, ex, ctx⟩ := c
  rcases inl with _ | _ | ⟨x, xs⟩ <;> by_cases hc : cmd = "" <;>
    simp [hc, len]

/-- The command `Prepare` leaves in the configuration once decoding has
succeeded. -/
theorem Prepare_decoded_command {Raw : Type}
    (Decode : Config → DecodeOpts → List Raw → Config × Option GoError)
    (GOOS : String) (p : Provisioner) (raws : List Raw) (c : Config)
    (hdec : Decode p.config (prepareDecodeOpts p) raws = (c, none)) :
    (Prepare Decode GOOS p raws).1.config.Command =
      if c.Command = "" ∧ len c.Inline > 0 then stringsJoin (elems c.Inline) ";"
      else c.Command := by
  rw [Prepare_decoded Decode GOOS p raws c hdec]
  obtain ⟨pc, cmd, inl, ex, ctx⟩ := c
  rcases inl with _ | _ | ⟨x, xs⟩ <;> by_cases hc : cmd = "" <;>
    simp only [hc, len, elems, List.length_nil, List.length_cons, ne_eq, not_true_eq_false,
      not_false_eq_true, false_and, and_false, and_true, true_and, if_true, if_false,
      gt_iff_lt, lt_self_iff_false, Nat.zero_lt_succ, Nat.succ_ne_zero, reduceCtorEq,
      and_self] <;>
    split_ifs <;> rfl

/-- The execute command `Prepare` leaves in the configuration once decoding
has succeeded. -/
theorem Prepare_decoded_execute {Raw : Type}
    (Decode : Config → DecodeOpts → List Raw → Config × Option GoError)
    (GOOS : String) (p : Provisioner) (raws : List Raw) (c : Config)
    (hdec : Decode p.config (prepareDecodeOpts p) raws = (c, none)) :
    (Prepare Decode GOOS p raws).1.config.ExecuteCommand =
      if len c.ExecuteCommand = 0 then
        some (if GOOS = "windows" then defaultWindows else defaultUnix)
      else c.ExecuteCommand := by
  rw [Prepare_decoded Decode GOOS p raws c hdec]
  obtain ⟨pc, cmd, inl, ex, ctx⟩ := c
  rcases inl with _ | _ | ⟨x, xs⟩ <;> by_cases hc : cmd = "" <;>
    simp only [hc, len, elems, List.length_nil, List.length_cons, ne_eq, not_true_eq_false,
      not_false_eq_true, false_and, and_false, and_true, true_and, if_true, if_false,
      gt_iff_lt, lt_self_iff_false, Nat.zero_lt_succ, Nat.succ_ne_zero, reduceCtorEq,
      and_self] <;>
    split_ifs <;> rfl

/-- What `Prepare` returns when decoding reports an error. -/
theorem Prepare_decode_failed {Raw : Type}
    (Decode : Config → DecodeOpts → List Raw → Config × Option GoError)
    (GOOS : String) (p : Provisioner) (raws : List Raw) (c : Config) (e : GoError)
    (hdec : Decode p.config (prepareDecodeOpts p) raws = (c, some e)) :
    Prepare Decode GOOS p raws = ({ config := c }, some e) := by
  unfold Prepare
  simp only [hdec]

/-- The join of a non-empty list is the empty string only for the list that
holds one empty string. -/
theorem stringsJoin_eq_empty (sep x : String) (xs : List String) (hsep : sep ≠ "") :
    stringsJoin (x :: xs) sep = "" ↔ x = "" ∧ xs = [] := by
  constructor
  · intro h
    have hd := congrArg String.data h
    rw [stringsJoin_cons, foldl_join_data] at hd
    have hd2 : x.data ++ (xs.map (fun s => sep.data ++ s.data)).flatten = [] := hd
    rw [List.append_eq_nil] at hd2
    obtain ⟨hx, hf⟩ := hd2
    refine ⟨String.ext hx, ?_⟩
    cases xs with
    | nil => rfl
    | cons y ys =>
      exfalso
      simp only [List.map_cons, List.flatten_cons, List.append_eq_nil] at hf
      exact hsep (String.ext hf.1.1)
  · rintro ⟨hx, hxs⟩
    subst hx hxs
    rfl

/-! ## Claims about Prepare -/

/-- C1: when decoding succeeded with an empty command and a non-empty inline
list, Prepare sets the command to the inline elements joined with the
separator `;` in their original order (the characters of the command are the
characters of the elements with `;` between consecutive elements and nowhere
else), and a single-element list yields that element unchanged. -/
theorem C1_inline_joined {Raw : Type}
    (Decode : Config → DecodeOpts → List Raw → Config × Option GoError)
    (GOOS : String) (p : Provisioner) (raws : List Raw) (c : Config)
    (x : String) (xs : List String)
    (hdec : Decode p.config (prepareDecodeOpts p) raws = (c, none))
    (hcmd : c.Command = "") (hinl : c.Inline = some (x :: xs)) :
    (Prepare Decode GOOS p raws).1.config.Command = stringsJoin (x :: xs) ";" ∧
    (Prepare Decode GOOS p raws).1.config.Command.data
      = List.intercalate [';'] ((x :: xs).map String.data) ∧
    (xs = [] → (Prepare Decode GOOS p raws).1.config.Command = x) := by
  have hcmdEq : (Prepare Decode GOOS p raws).1.config.Command = stringsJoin (x :: xs) ";" := by
    rw [Prepare_decoded Decode GOOS p raws c hdec]
    simp only [hcmd, hinl, len, elems, List.length_cons, Nat.succ_ne_zero, and_false, if_false,
      gt_iff_lt, Nat.zero_lt_succ, and_self, if_true]
    split_ifs <;> rfl
  refine ⟨hcmdEq, ?_, ?_⟩
  · rw [hcmdEq, stringsJoin_data]
  · intro hxs
    rw [hcmdEq, hxs]
    rfl

/-- Witness for C1: inline `["echo a", "echo b"]` with an empty command. -/
theorem C1_inline_joined_witness :
    (Prepare (decodeOk (mkConfig "" (some ["echo a", "echo b"]) none)) "linux"
        zeroProvisioner []).1.config.Command = "echo a;echo b" :=
  (C1_inline_joined (decodeOk (mkConfig "" (some ["echo a", "echo b"]) none)) "linux"
    zeroProvisioner [] (mkConfig "" (some ["echo a", "echo b"]) none) "echo a" ["echo b"]
    rfl rfl rfl).1.trans (by decide)

/-- C2, evaluated on the code: a configuration with the command `echo hi`
and no inline list is rejected with the MissingSource message, and the same
happens with an explicitly empty inline list. -/
theorem C2_command_only_rejected :
    (Prepare (decodeOk (mkConfig "echo hi" none none)) "linux" zeroProvisioner []).2
      = some (GoError.multiError { Errors := ["command or inline must be specified"] }) ∧
    (Prepare (decodeOk (mkConfig "echo hi" (some []) none)) "linux" zeroProvisioner []).2
      = some (GoError.multiError { Errors := ["command or inline must be specified"] }) := by
  decide

/-- C3: when decoding succeeded with a non-empty command and a non-empty
inline list, Prepare returns a multi-error that contains the
ConflictingSource message, and so does not return success. -/
theorem C3_conflicting_source {Raw : Type}
    (Decode : Config → DecodeOpts → List Raw → Config × Option GoError)
    (GOOS : String) (p : Provisioner) (raws : List Raw) (c : Config)
    (x : String) (xs : List String)
    (hdec : Decode p.config (prepareDecodeOpts p) raws = (c, none))
    (hcmd : c.Command ≠ "") (hinl : c.Inline = some (x :: xs)) :
    (∃ m : MultiError, (Prepare Decode GOOS p raws).2 = some (GoError.multiError m) ∧
      "only command or inline should be specified" ∈ m.Errors) ∧
    (Prepare Decode GOOS p raws).2 ≠ none := by
  have h : (Prepare Decode GOOS p raws).2
      = some (GoError.multiError { Errors := [msgConflictingSource] }) := by
    rw [Prepare_decoded Decode GOOS p raws c hdec]
    simp only [hcmd, hinl, len, List.length_cons, Nat.succ_ne_zero, and_false, if_false,
      gt_iff_lt, Nat.zero_lt_succ, and_self, if_true, false_and, ne_eq, not_false_eq_true,
      Option.map]
  refine ⟨⟨_, h, ?_⟩, ?_⟩
  · simp [msgConflictingSource]
  · rw [h]
    exact Option.some_ne_none _

/-- Witness for C3: command `echo hi` together with inline `["ls"]`. -/
theorem C3_conflicting_source_witness :
    (Prepare (decodeOk (mkConfig "echo hi" (some ["ls"]) none)) "linux"
        zeroProvisioner []).2 ≠ none :=
  (C3_conflicting_source (decodeOk (mkConfig "echo hi" (some ["ls"]) none)) "linux"
    zeroProvisioner [] (mkConfig "echo hi" (some ["ls"]) none) "ls" []
    rfl (by decide) rfl).2

/-- C4: when decoding succeeded with an empty command and an inline list that
is absent or has zero elements, Prepare returns a multi-error that contains
the MissingSource message. -/
theorem C4_missing_source {Raw : Type}
    (Decode : Config → DecodeOpts → List Raw → Config × Option GoError)
    (GOOS : String) (p : Provisioner) (raws : List Raw) (c : Config)
    (hdec : Decode p.config (prepareDecodeOpts p) raws = (c, none))
    (hcmd : c.Command = "") (hinl : c.Inline = none ∨ c.Inline = some []) :
    ∃ m : MultiError, (Prepare Decode GOOS p raws).2 = some (GoError.multiError m) ∧
      "command or inline must be specified" ∈ m.Errors := by
  have h : (Prepare Decode GOOS p raws).2
      = some (GoError.multiError { Errors := [msgMissingSource] }) := by
    rw [Prepare_decoded Decode GOOS p raws c hdec]
    rcases hinl with hinl | hinl <;>
    simp only [hcmd, hinl, len, List.length_nil, and_false, if_false, and_true, if_true,
      gt_iff_lt, lt_self_iff_false, and_self, ne_eq, not_true_eq_false, false_and,
      not_false_eq_true, reduceCtorEq, Option.map]
  exact ⟨_, h, by simp [msgMissingSource]⟩

/-- Witness for C4: every field left at its zero value. -/
theorem C4_missing_source_witness :
    ∃ m : MultiError,
      (Prepare (decodeOk (mkConfig "" none none)) "linux" zeroProvisioner []).2
        = some (GoError.multiError m) ∧
      "command or inline must be specified" ∈ m.Errors :=
  C4_missing_source (decodeOk (mkConfig "" none none)) "linux" zeroProvisioner []
    (mkConfig "" none none) rfl rfl (Or.inl rfl)

/-- C5, refuted as stated: with an explicitly empty execute command and the
inline list `["echo hi"]` on a non-Windows platform, Prepare succeeds and
fills in the default execute command. -/
theorem C5_explicit_empty_counterexample :
    Prepare (decodeOk (mkConfig "" (some ["echo hi"]) (some []))) "linux" zeroProvisioner []
      = ({ config := mkConfig "echo hi" (some ["echo hi"])
            (some ["/bin/sh", "-c", "\x7b\x7b.Command\x7d\x7d"]) }, none) := by
  decide

/-- C5, amended: when decoding succeeded with an explicitly empty execute
command, Prepare applies the platform default exactly as for an absent one,
and the returned error, if any, does not contain the EmptyExecuteTemplate
message. -/
theorem C5_explicit_empty_defaulted {Raw : Type}
    (Decode : Config → DecodeOpts → List Raw → Config × Option GoError)
    (GOOS : String) (p : Provisioner) (raws : List Raw) (c : Config)
    (hdec : Decode p.config (prepareDecodeOpts p) raws = (c, none))
    (hex : c.ExecuteCommand = some []) :
    (Prepare Decode GOOS p raws).1.config.ExecuteCommand
      = some (if GOOS = "windows" then ["cmd", "/C", "\x7b\x7b.Command\x7d\x7d"]
          else ["/bin/sh", "-c", "\x7b\x7b.Command\x7d\x7d"]) ∧
    ∀ m : MultiError, (Prepare Decode GOOS p raws).2 = some (GoError.multiError m) →
      "execute_command must not be empty" ∉ m.Errors := by
  constructor
  · rw [Prepare_decoded_execute Decode GOOS p raws c hdec, hex]
    rfl
  · intro m hm
    rw [Prepare_decoded_err Decode GOOS p raws c hdec] at hm
    split_ifs at hm <;>
      simp only [Option.some.injEq, GoError.multiError.injEq, reduceCtorEq] at hm <;>
      subst hm <;> decide

/-- Witness for C5: an explicitly empty execute command next to an inline
list on Windows. -/
theorem C5_explicit_empty_defaulted_witness :
    (Prepare (decodeOk (mkConfig "" (some ["dir"]) (some []))) "windows"
        zeroProvisioner []).1.config.ExecuteCommand
      = some ["cmd", "/C", "\x7b\x7b.Command\x7d\x7d"] :=
  (C5_explicit_empty_defaulted (decodeOk (mkConfig "" (some ["dir"]) (some []))) "windows"
    zeroProvisioner [] (mkConfig "" (some ["dir"]) (some [])) rfl rfl).1

/-- C6: when decoding succeeded with an unset execute command, after Prepare
the execute command is the three-element `cmd` default on windows and the
three-element `/bin/sh` default on every other platform, whatever the command
and inline fields are. -/
theorem C6_default_execute_command {Raw : Type}
    (Decode : Config → DecodeOpts → List Raw → Config × Option GoError)
    (GOOS : String) (p : Provisioner) (raws : List Raw) (c : Config)
    (hdec : Decode p.config (prepareDecodeOpts p) raws = (c, none))
    (hex : c.ExecuteCommand = none) :
    (GOOS = "windows" → (Prepare Decode GOOS p raws).1.config.ExecuteCommand
      = some ["cmd", "/C", "\x7b\x7b.Command\x7d\x7d"]) ∧
    (GOOS ≠ "windows" → (Prepare Decode GOOS p raws).1.config.ExecuteCommand
      = some ["/bin/sh", "-c", "\x7b\x7b.Command\x7d\x7d"]) := by
  rw [Prepare_decoded_execute Decode GOOS p raws c hdec, hex]
  constructor
  · intro hw
    simp only [len, if_true, hw]
    rfl
  · intro hw
    simp only [len, if_true, hw, if_false]
    rfl

/-- Witness for C6: a command-only configuration on darwin. -/
theorem C6_default_execute_command_witness :
    (Prepare (decodeOk (mkConfig "echo hi" none none)) "darwin"
        zeroProvisioner []).1.config.ExecuteCommand
      = some ["/bin/sh", "-c", "\x7b\x7b.Command\x7d\x7d"] :=
  (C6_default_execute_command (decodeOk (mkConfig "echo hi" none none)) "darwin"
    zeroProvisioner [] (mkConfig "echo hi" none none) rfl rfl).2 (by decide)

/-- C7, refuted as stated: the inline list holding one empty string is
accepted, and the normalized command is then the empty string. -/
theorem C7_empty_command_counterexample :
    (Prepare (decodeOk (mkConfig "" (some [""]) none)) "linux" zeroProvisioner []).2 = none ∧
    (Prepare (decodeOk (mkConfig "" (some [""]) none)) "linux"
        zeroProvisioner []).1.config.Command = "" := by
  decide

/-- C7, amended: after every successful Prepare the normalized command is a
non-empty string, except when the inline list is exactly one empty string,
in which case it is the empty string; and with an empty command and the
inline list holding exactly one empty string Prepare does succeed, leaving
the empty string as the command. -/
theorem C7_command_nonempty_unless_single_empty {Raw : Type}
    (Decode : Config → DecodeOpts → List Raw → Config × Option GoError)
    (GOOS : String) (p : Provisioner) (raws : List Raw) (c : Config)
    (hdec : Decode p.config (prepareDecodeOpts p) raws = (c, none)) :
    ((Prepare Decode GOOS p raws).2 = none →
      ((Prepare Decode GOOS p raws).1.config.Command = "" ↔ c.Inline = some [""])) ∧
    (c.Command = "" → c.Inline = some [""] →
      (Prepare Decode GOOS p raws).2 = none ∧
      (Prepare Decode GOOS p raws).1.config.Command = "") := by
  constructor
  · intro hok
    rw [Prepare_decoded_err Decode GOOS p raws c hdec] at hok
    rw [Prepare_decoded_command Decode GOOS p raws c hdec]
    split_ifs at hok with h1
    rw [if_pos h1]
    obtain ⟨pc, cmd, inl, ex, ctx⟩ := c
    rcases inl with _ | _ | ⟨x, xs⟩
    · simp [len] at h1
    · simp [len] at h1
    · simp only [elems]
      rw [stringsJoin_eq_empty ";" x xs (by decide)]
      simp
  · intro hcmd hinl
    have h1 : c.Command = "" ∧ len c.Inline > 0 := by
      refine ⟨hcmd, ?_⟩
      rw [hinl]
      decide
    rw [Prepare_decoded_err Decode GOOS p raws c hdec,
      Prepare_decoded_command Decode GOOS p raws c hdec, if_pos h1, if_pos h1, hinl]
    exact ⟨rfl, rfl⟩

/-- Witness for C7: two empty inline elements still give a non-empty command,
and one empty inline element is accepted with an empty command. -/
theorem C7_command_nonempty_unless_single_empty_witness :
    ((Prepare (decodeOk (mkConfig "" (some ["", ""]) none)) "linux"
        zeroProvisioner []).1.config.Command = "" ↔
      (mkConfig "" (some ["", ""]) none).Inline = some [""]) ∧
    ((Prepare (decodeOk (mkConfig "" (some [""]) none)) "linux" zeroProvisioner []).2 = none ∧
      (Prepare (decodeOk (mkConfig "" (some [""]) none)) "linux"
        zeroProvisioner []).1.config.Command = "") :=
  ⟨(C7_command_nonempty_unless_single_empty (decodeOk (mkConfig "" (some ["", ""]) none))
      "linux" zeroProvisioner [] (mkConfig "" (some ["", ""]) none) rfl).1 (by decide),
    (C7_command_nonempty_unless_single_empty (decodeOk (mkConfig "" (some [""]) none))
      "linux" zeroProvisioner [] (mkConfig "" (some [""]) none) rfl).2 rfl rfl⟩

/-- C8: after every successful Prepare the execute command is a non-empty
sequence, for every input configuration, decoder and platform. -/
theorem C8_execute_command_nonempty {Raw : Type}
    (Decode : Config → DecodeOpts → List Raw → Config × Option GoError)
    (GOOS : String) (p : Provisioner) (raws : List Raw)
    (hok : (Prepare Decode GOOS p raws).2 = none) :
    0 < len (Prepare Decode GOOS p raws).1.config.ExecuteCommand := by
  rcases hd : Decode p.config (prepareDecodeOpts p) raws with ⟨c, _ | e⟩
  · rw [Prepare_decoded_execute Decode GOOS p raws c hd]
    split_ifs with h0 hw
    · decide
    · decide
    · exact Nat.pos_of_ne_zero h0
  · rw [Prepare_decode_failed Decode GOOS p raws c e hd] at hok
    exact absurd hok (Option.some_ne_none _)

/-- Witness for C8: an explicitly empty execute command next to an inline
list. -/
theorem C8_execute_command_nonempty_witness :
    0 < len (Prepare (decodeOk (mkConfig "" (some ["echo hi"]) (some []))) "linux"
      zeroProvisioner []).1.config.ExecuteCommand :=
  C8_execute_command_nonempty (decodeOk (mkConfig "" (some ["echo hi"]) (some []))) "linux"
    zeroProvisioner [] (by decide)

/-! ## Claims about Provision -/

/-- Go `%d` prints the decimal digits of the magnitude, after a minus sign
for a negative number. -/
theorem fmtD_eq (n : Int) :
    fmtD n = if n < 0 then "-" ++ Nat.repr n.natAbs else Nat.repr n.natAbs := by
  cases n with
  | ofNat m =>
    have h : ¬ (Int.ofNat m < 0) := by simp
    rw [if_neg h]
    rfl
  | negSucc m =>
    have h : Int.negSucc m < 0 := Int.negSucc_lt_zero m
    rw [if_pos h]
    rfl

/-- C9: Provision returns the nil error exactly when the communicator starts
the command without error and the reported exit status is zero; in
particular the command `echo hi` with a stub reporting exit status 0 yields
the nil error. -/
theorem C9_provision_ok_iff :
    (∀ (StartWithUi : Communicator → RemoteCmd → StartResult) (p : Provisioner),
      (Provision StartWithUi p).2.2 = none ↔
        ((StartWithUi { Ctx := p.config.ctx, ExecuteCommand := p.config.ExecuteCommand }
            { Command := p.config.Command, ExitStatus := 0 }).err = none ∧
         (StartWithUi { Ctx := p.config.ctx, ExecuteCommand := p.config.ExecuteCommand }
            { Command := p.config.Command, ExitStatus := 0 }).ExitStatus = 0)) ∧
    (Provision (stubExit 0)
      { config := mkConfig "echo hi" none
          (some ["/bin/sh", "-c", "\x7b\x7b.Command\x7d\x7d"]) }).2.2 = none := by
  refine ⟨?_, by decide⟩
  intro S p
  unfold Provision
  rcases hres : S { Ctx := p.config.ctx, ExecuteCommand := p.config.ExecuteCommand }
      { Command := p.config.Command, ExitStatus := 0 } with ⟨err, st, out⟩
  cases err with
  | some e => simp [hres]
  | none =>
    by_cases hst : st = 0
    · simp [hres, hst]
    · simp [hres, hst]

/-- C10: when the communicator starts the command `c` without error and
reports a non-zero exit status `n`, Provision returns the error whose message
is `Erroneous exit code <n> while executing command: <c>`, a blank line, and
`Please see output above for more information.`, where `<n>` is the decimal
exit status (with a minus sign when negative) and `<c>` the command text
verbatim. -/
theorem C10_nonzero_exit (StartWithUi : Communicator → RemoteCmd → StartResult)
    (p : Provisioner) (n : Int)
    (hstart : (StartWithUi { Ctx := p.config.ctx, ExecuteCommand := p.config.ExecuteCommand }
      { Command := p.config.Command, ExitStatus := 0 }).err = none)
    (hstatus : (StartWithUi { Ctx := p.config.ctx, ExecuteCommand := p.config.ExecuteCommand }
      { Command := p.config.Command, ExitStatus := 0 }).ExitStatus = n)
    (hn : n ≠ 0) :
    (Provision StartWithUi p).2.2 = some (GoError.errorString
      ("Erroneous exit code " ++
        (if n < 0 then "-" ++ Nat.repr n.natAbs else Nat.repr n.natAbs) ++
        " while executing command: " ++ p.config.Command ++
        "\n\nPlease see output above for more information.")) := by
  rw [← fmtD_eq]
  unfold Provision
  simp only [hstart, hstatus, hn, ne_eq, not_false_eq_true, if_true, msgNonZeroExit]
  have hs : "\n\n" ++ "Please see output above for more information."
      = "\n\nPlease see output above for more information." := by decide
  rw [← hs]
  simp only [String.append_assoc]

/-- Witness for C10: the command `echo hi` with a stub reporting exit
status 2. -/
theorem C10_nonzero_exit_witness :
    (Provision (stubExit 2) { config := mkConfig "echo hi" none none }).2.2
      = some (GoError.errorString
          "Erroneous exit code 2 while executing command: echo hi\n\nPlease see output above for more information.") :=
  (C10_nonzero_exit (stubExit 2) { config := mkConfig "echo hi" none none } 2 rfl rfl
    (by decide)).trans
    (by decide)

/-- C11: when the start call of the communicator fails on the command `c`,
Provision returns the error whose message is `Error executing command: <c>`,
a blank line, and `Please see output above for more information.`, whatever
error the start call reported and whatever exit status the command holds. -/
theorem C11_start_failure (StartWithUi : Communicator → RemoteCmd → StartResult)
    (p : Provisioner) (e : GoError)
    (hstart : (StartWithUi { Ctx := p.config.ctx, ExecuteCommand := p.config.ExecuteCommand }
      { Command := p.config.Command, ExitStatus := 0 }).err = some e) :
    (Provision StartWithUi p).2.2 = some (GoError.errorString
      ("Error executing command: " ++ p.config.Command ++
        "\n\nPlease see output above for more information.")) := by
  unfold Provision
  simp only [hstart, msgStartFailure]
  have hs : "\n\n" ++ "Please see output above for more information."
      = "\n\nPlease see output above for more information." := by decide
  rw [← hs]
  simp only [String.append_assoc]

/-- Witness for C11: the command `echo hi` with a stub whose start call
fails while the exit status reads 7. -/
theorem C11_start_failure_witness :
    (Provision (stubStartFails (GoError.errorString "exec: no shell") 7)
        { config := mkConfig "echo hi" none none }).2.2
      = some (GoError.errorString
          "Error executing command: echo hi\n\nPlease see output above for more information.") :=
  (C11_start_failure (stubStartFails (GoError.errorString "exec: no shell") 7)
    { config := mkConfig "echo hi" none none } (GoError.errorString "exec: no shell")
    rfl).trans (by decide)

/-- C12: an inline list decoded as an explicit empty sequence behaves like an
absent one: for every command, execute command and platform the two calls of
Prepare return the same error and leave the same configuration (so the same
command and execute command), and the command is the decoded one, never one
derived from the empty list. -/
theorem C12_empty_inline_as_absent {Raw₁ Raw₂ : Type}
    (Decode₁ : Config → DecodeOpts → List Raw₁ → Config × Option GoError)
    (Decode₂ : Config → DecodeOpts → List Raw₂ → Config × Option GoError)
    (GOOS : String) (p₁ p₂ : Provisioner) (raws₁ : List Raw₁) (raws₂ : List Raw₂)
    (c : Config)
    (hdec₁ : Decode₁ p₁.config (prepareDecodeOpts p₁) raws₁ = ({ c with Inline := some [] }, none))
    (hdec₂ : Decode₂ p₂.config (prepareDecodeOpts p₂) raws₂ = ({ c with Inline := none }, none)) :
    Prepare Decode₁ GOOS p₁ raws₁ = Prepare Decode₂ GOOS p₂ raws₂ ∧
    (Prepare Decode₁ GOOS p₁ raws₁).1.config.Command = c.Command ∧
    (Prepare Decode₂ GOOS p₂ raws₂).1.config.Command = c.Command := by
  refine ⟨?_, ?_, ?_⟩
  · rw [Prepare_decoded Decode₁ GOOS p₁ raws₁ _ hdec₁,
      Prepare_decoded Decode₂ GOOS p₂ raws₂ _ hdec₂]
    simp [len]
  · rw [Prepare_decoded_command Decode₁ GOOS p₁ raws₁ _ hdec₁]
    simp [len]
  · rw [Prepare_decoded_command Decode₂ GOOS p₂ raws₂ _ hdec₂]
    simp [len]

/-- Witness for C12: the command `echo hi` with an explicitly empty inline
list and with none. -/
theorem C12_empty_inline_as_absent_witness :
    Prepare (decodeOk (mkConfig "echo hi" (some []) none)) "linux" zeroProvisioner []
      = Prepare (decodeOk (mkConfig "echo hi" none none)) "linux" zeroProvisioner [] :=
  (C12_empty_inline_as_absent (decodeOk (mkConfig "echo hi" (some []) none))
    (decodeOk (mkConfig "echo hi" none none)) "linux" zeroProvisioner zeroProvisioner [] []
    (mkConfig "echo hi" none none) rfl rfl).1

/-- C13, refuted as stated: with no command, no inline list and an
explicitly empty execute command, the multi-error Prepare returns holds the
MissingSource message alone; with both a command and an inline list it holds
the ConflictingSource message alone. -/
theorem C13_collects_counterexample :
    (Prepare (decodeOk (mkConfig "" none (some []))) "linux" zeroProvisioner []).2
      = some (GoError.multiError { Errors := ["command or inline must be specified"] }) ∧
    (Prepare (decodeOk (mkConfig "echo hi" (some ["ls"]) (some []))) "linux"
        zeroProvisioner []).2
      = some (GoError.multiError
          { Errors := ["only command or inline should be specified"] }) := by
  decide

/-- C13, amended: when decoding succeeded with a source-rule violation (both
a command and a non-empty inline list, or neither) and an explicitly empty
execute command, Prepare returns a multi-error that contains the source-rule
error (ConflictingSource in the first case, MissingSource in the second) and
does not contain the EmptyExecuteTemplate error, and the execute command is
filled with the platform default: the `cmd` template on windows, the
`/bin/sh` template on every other platform. -/
theorem C13_source_error_without_template_error {Raw : Type}
    (Decode : Config → DecodeOpts → List Raw → Config × Option GoError)
    (GOOS : String) (p : Provisioner) (raws : List Raw) (c : Config)
    (hdec : Decode p.config (prepareDecodeOpts p) raws = (c, none))
    (hex : c.ExecuteCommand = some [])
    (hviol : (c.Command ≠ "" ∧ 0 < len c.Inline) ∨ (c.Command = "" ∧ len c.Inline = 0)) :
    ∃ m : MultiError, (Prepare Decode GOOS p raws).2 = some (GoError.multiError m) ∧
      (c.Command ≠ "" → "only command or inline should be specified" ∈ m.Errors) ∧
      (c.Command = "" → "command or inline must be specified" ∈ m.Errors) ∧
      "execute_command must not be empty" ∉ m.Errors ∧
      (Prepare Decode GOOS p raws).1.config.ExecuteCommand
        = some (if GOOS = "windows" then ["cmd", "/C", "\x7b\x7b.Command\x7d\x7d"]
            else ["/bin/sh", "-c", "\x7b\x7b.Command\x7d\x7d"]) := by
  have hdef : (Prepare Decode GOOS p raws).1.config.ExecuteCommand
      = some (if GOOS = "windows" then ["cmd", "/C", "\x7b\x7b.Command\x7d\x7d"]
          else ["/bin/sh", "-c", "\x7b\x7b.Command\x7d\x7d"]) := by
    rw [Prepare_decoded_execute Decode GOOS p raws c hdec, hex]
    rfl
  rw [Prepare_decoded_err Decode GOOS p raws c hdec]
  rcases hviol with ⟨hc, hi⟩ | ⟨hc, hi⟩
  · refine ⟨{ Errors := [msgConflictingSource] }, ?_, ?_, ?_, ?_, hdef⟩
    · simp [hc, hi]
    · intro _
      simp [msgConflictingSource]
    · intro h
      exact absurd h hc
    · decide
  · refine ⟨{ Errors := [msgMissingSource] }, ?_, ?_, ?_, ?_, hdef⟩
    · simp [hc, hi]
    · intro h
      exact absurd hc h
    · intro _
      simp [msgMissingSource]
    · decide

/-- Witness for C13: both a command and an inline list, with an explicitly
empty execute command. -/
theorem C13_source_error_without_template_error_witness :
    ∃ m : MultiError,
      (Prepare (decodeOk (mkConfig "echo hi" (some ["ls"]) (some []))) "linux"
        zeroProvisioner []).2 = some (GoError.multiError m) ∧
      "only command or inline should be specified" ∈ m.Errors ∧
      "execute_command must not be empty" ∉ m.Errors ∧
      (Prepare (decodeOk (mkConfig "echo hi" (some ["ls"]) (some []))) "linux"
        zeroProvisioner []).1.config.ExecuteCommand
        = some ["/bin/sh", "-c", "\x7b\x7b.Command\x7d\x7d"] := by
  obtain ⟨m, h1, h2, _, h4, h5⟩ :=
    C13_source_error_without_template_error
      (decodeOk (mkConfig "echo hi" (some ["ls"]) (some []))) "linux" zeroProvisioner []
      (mkConfig "echo hi" (some ["ls"]) (some [])) rfl rfl (Or.inl ⟨by decide, by decide⟩)
  exact ⟨m, h1, h2 (by decide), h4, h5.trans (by decide)⟩

/-- The trace of one `Provision` call: the announcement, the start attempt,
then what the communicator streamed. -/
theorem Provision_trace (StartWithUi : Communicator → RemoteCmd → StartResult)
    (p : Provisioner) :
    (Provision StartWithUi p).2.1 =
      Event.say (msgExecuting p.config.Command) ::
      Event.start { Ctx := p.config.ctx, ExecuteCommand := p.config.ExecuteCommand }
        p.config.Command ::
      (StartWithUi { Ctx := p.config.ctx, ExecuteCommand := p.config.ExecuteCommand }
        { Command := p.config.Command, ExitStatus := 0 }).streamed.map Event.output := by
  unfold Provision
  rcases hres : StartWithUi { Ctx := p.config.ctx, ExecuteCommand := p.config.ExecuteCommand }
      { Command := p.config.Command, ExitStatus := 0 } with ⟨err, st, out⟩
  cases err with
  | some e => simp [hres]
  | none =>
    by_cases hst : st = 0
    · simp [hres, hst]
    · simp [hres, hst]

theorem filter_isSay_output (ls : List String) :
    (ls.map Event.output).filter isSay = [] := by
  induction ls with
  | nil => rfl
  | cons l ls ih => simp [List.filter, isSay, ih]

theorem filter_isStart_output (ls : List String) :
    (ls.map Event.output).filter isStart = [] := by
  induction ls with
  | nil => rfl
  | cons l ls ih => simp [List.filter, isStart, ih]

/-- C14: for every configuration and every communicator outcome, the trace of
one Provision call starts with the announcement `Executing local command:`
followed by the command, then has the start attempt, whose command is the
command of the configuration unchanged, and then only streamed output; so the
trace holds exactly one line said by the provisioner and exactly one start
attempt, the announcement first. -/
theorem C14_one_announcement_one_start
    (StartWithUi : Communicator → RemoteCmd → StartResult) (p : Provisioner) :
    (Provision StartWithUi p).2.1 =
      Event.say ("Executing local command: " ++ p.config.Command) ::
      Event.start { Ctx := p.config.ctx, ExecuteCommand := p.config.ExecuteCommand }
        p.config.Command ::
      (StartWithUi { Ctx := p.config.ctx, ExecuteCommand := p.config.ExecuteCommand }
        { Command := p.config.Command, ExitStatus := 0 }).streamed.map Event.output ∧
    (Provision StartWithUi p).2.1.filter isSay =
      [Event.say ("Executing local command: " ++ p.config.Command)] ∧
    (Provision StartWithUi p).2.1.filter isStart =
      [Event.start { Ctx := p.config.ctx, ExecuteCommand := p.config.ExecuteCommand }
        p.config.Command] := by
  rw [Provision_trace]
  refine ⟨rfl, ?_, ?_⟩
  · simp only [List.filter, isSay, isStart, filter_isSay_output]
    rfl
  · simp only [List.filter, isSay, isStart, filter_isStart_output]

/-- A slice keeps its length whatever is left in its array. -/
theorem len_aliased (old : Option (List String)) (now : List String) :
    len (aliased old now) = len old := by
  cases old with
  | none => rfl
  | some l =>
    simp only [aliased, len, List.length_append, List.length_take, List.length_drop]
    omega

/-- A slice whose array was left as it was holds what it held. -/
theorem aliased_elems (old : Option (List String)) : aliased old (elems old) = old := by
  cases old with
  | none => rfl
  | some l => simp [aliased, elems]

/-- The provisioner one `Provision` call leaves behind. -/
theorem Provision_provisioner (StartWithUi : Communicator → RemoteCmd → StartResult)
    (p : Provisioner) :
    (Provision StartWithUi p).1 =
      { config := { p.config with
          ExecuteCommand := aliased p.config.ExecuteCommand
            (StartWithUi { Ctx := p.config.ctx, ExecuteCommand := p.config.ExecuteCommand }
              { Command := p.config.Command, ExitStatus := 0 }).ExecuteCommand } } := by
  unfold Provision
  rcases hres : StartWithUi { Ctx := p.config.ctx, ExecuteCommand := p.config.ExecuteCommand }
      { Command := p.config.Command, ExitStatus := 0 } with ⟨err, st, out, ex⟩
  cases err with
  | some e => simp [hres]
  | none =>
    by_cases hst : st = 0
    · simp [hres, hst]
    · simp [hres, hst]

/-- C15, refuted as stated: after a successful Prepare of the inline list
`["echo hi"]`, a Provision whose communicator renders the execute command in
the slice it is handed leaves the rendered fields in the configuration, so
the execute command after the call is not the one before. -/
theorem C15_execute_command_overwritten_counterexample :
    Prepare (decodeOk (mkConfig "" (some ["echo hi"]) none)) "linux" zeroProvisioner []
      = ({ config := mkConfig "echo hi" (some ["echo hi"])
            (some ["/bin/sh", "-c", "\x7b\x7b.Command\x7d\x7d"]) }, none) ∧
    (Provision (stubRendersInPlace 0)
        { config := mkConfig "echo hi" (some ["echo hi"])
            (some ["/bin/sh", "-c", "\x7b\x7b.Command\x7d\x7d"]) }).1.config.ExecuteCommand
      = some ["/bin/sh", "-c", "echo hi"] ∧
    (Provision (stubRendersInPlace 0)
        { config := mkConfig "echo hi" (some ["echo hi"])
            (some ["/bin/sh", "-c", "\x7b\x7b.Command\x7d\x7d"]) }).1.config.ExecuteCommand
      ≠ (mkConfig "echo hi" (some ["echo hi"])
            (some ["/bin/sh", "-c", "\x7b\x7b.Command\x7d\x7d"])).ExecuteCommand := by
  decide

/-- C15, amended: Cancel leaves the configuration unchanged. Provision leaves
the command and inline fields (and every field but the execute command)
unchanged, keeps the length of the execute command and whether it is nil, and
leaves the whole configuration unchanged whenever the communicator leaves the
execute command slice it is handed as it was. -/
theorem C15_provision_frame
    (StartWithUi : Communicator → RemoteCmd → StartResult) (p : Provisioner) :
    ((Provision StartWithUi p).1.config.Command = p.config.Command ∧
      (Provision StartWithUi p).1.config.Inline = p.config.Inline ∧
      (Provision StartWithUi p).1.config.PackerConfig = p.config.PackerConfig ∧
      (Provision StartWithUi p).1.config.ctx = p.config.ctx) ∧
    len (Provision StartWithUi p).1.config.ExecuteCommand = len p.config.ExecuteCommand ∧
    ((Provision StartWithUi p).1.config.ExecuteCommand = none ↔
      p.config.ExecuteCommand = none) ∧
    ((StartWithUi { Ctx := p.config.ctx, ExecuteCommand := p.config.ExecuteCommand }
        { Command := p.config.Command, ExitStatus := 0 }).ExecuteCommand
        = elems p.config.ExecuteCommand →
      (Provision StartWithUi p).1 = p) ∧
    ((Cancel p).config.Command = p.config.Command ∧
      (Cancel p).config.Inline = p.config.Inline ∧
      (Cancel p).config.ExecuteCommand = p.config.ExecuteCommand ∧
      Cancel p = p) := by
  rw [Provision_provisioner]
  refine ⟨⟨rfl, rfl, rfl, rfl⟩, len_aliased _ _, ?_, ?_, ⟨rfl, rfl, rfl, rfl⟩⟩
  · cases h : p.config.ExecuteCommand <;> simp [aliased]
  · intro hsame
    rw [hsame, aliased_elems]

/-- Witness for C15: a communicator that does not write to the slice leaves
the prepared configuration as it was. -/
theorem C15_provision_frame_witness :
    (Provision (stubExit 0)
        { config := mkConfig "echo hi" (some ["echo hi"])
            (some ["/bin/sh", "-c", "\x7b\x7b.Command\x7d\x7d"]) }).1
      = { config := mkConfig "echo hi" (some ["echo hi"])
            (some ["/bin/sh", "-c", "\x7b\x7b.Command\x7d\x7d"]) } :=
  (C15_provision_frame (stubExit 0)
    { config := mkConfig "echo hi" (some ["echo hi"])
        (some ["/bin/sh", "-c", "\x7b\x7b.Command\x7d\x7d"]) }).2.2.2.1 rfl

/-- C16: when the decoder leaves a non-empty execute command, Prepare leaves
it exactly as supplied, on every platform, whether decoding and the source
rules succeed or fail; and Prepare asks the decoder not to render the
`execute_command` key. -/
theorem C16_execute_command_kept {Raw : Type}
    (Decode : Config → DecodeOpts → List Raw → Config × Option GoError)
    (GOOS : String) (p : Provisioner) (raws : List Raw) (e : String) (es : List String)
    (hex : (Decode p.config (prepareDecodeOpts p) raws).1.ExecuteCommand = some (e :: es)) :
    (Prepare Decode GOOS p raws).1.config.ExecuteCommand = some (e :: es) ∧
    (prepareDecodeOpts p).InterpolateFilterExclude = ["execute_command"] := by
  refine ⟨?_, rfl⟩
  rcases hd : Decode p.config (prepareDecodeOpts p) raws with ⟨c, _ | err⟩
  · rw [hd] at hex
    rw [Prepare_decoded_execute Decode GOOS p raws c hd]
    have hc : c.ExecuteCommand = some (e :: es) := hex
    simp [hc, len]
  · rw [hd] at hex
    rw [Prepare_decode_failed Decode GOOS p raws c err hd]
    exact hex

/-- Witness for C16: a custom execute command next to a conflicting command
and inline list, on windows. -/
theorem C16_execute_command_kept_witness :
    (Prepare (decodeOk (mkConfig "echo hi" (some ["ls"]) (some ["bash", "-c"]))) "windows"
        zeroProvisioner []).1.config.ExecuteCommand = some ["bash", "-c"] :=
  (C16_execute_command_kept
    (decodeOk (mkConfig "echo hi" (some ["ls"]) (some ["bash", "-c"]))) "windows"
    zeroProvisioner [] "bash" ["-c"] rfl).1

/-- C17: when the decoder reports an error, Prepare returns exactly that
error and leaves the configuration as the decoder left it: no command is
derived from the inline list, no default execute command is filled in and no
source-rule error is added. -/
theorem C17_decode_error_returned {Raw : Type}
    (Decode : Config → DecodeOpts → List Raw → Config × Option GoError)
    (GOOS : String) (p : Provisioner) (raws : List Raw) (c : Config) (e : GoError)
    (hdec : Decode p.config (prepareDecodeOpts p) raws = (c, some e)) :
    (Prepare Decode GOOS p raws).2 = some e ∧
    (Prepare Decode GOOS p raws).1.config = c ∧
    (Prepare Decode GOOS p raws).1.config.Command = c.Command ∧
    (Prepare Decode GOOS p raws).1.config.Inline = c.Inline ∧
    (Prepare Decode GOOS p raws).1.config.ExecuteCommand = c.ExecuteCommand := by
  rw [Prepare_decode_failed Decode GOOS p raws c e hdec]
  exact ⟨rfl, rfl, rfl, rfl, rfl⟩

/-- Witness for C17: a failing decoder that leaves an inline list and no
command or execute command behind. -/
theorem C17_decode_error_returned_witness :
    (Prepare (decodeFails (mkConfig "" (some ["ls"]) none) (GoError.errorString "bad key"))
        "linux" zeroProvisioner []).2 = some (GoError.errorString "bad key") ∧
    (Prepare (decodeFails (mkConfig "" (some ["ls"]) none) (GoError.errorString "bad key"))
        "linux" zeroProvisioner []).1.config = mkConfig "" (some ["ls"]) none :=
  ⟨(C17_decode_error_returned
      (decodeFails (mkConfig "" (some ["ls"]) none) (GoError.errorString "bad key"))
      "linux" zeroProvisioner [] (mkConfig "" (some ["ls"]) none)
      (GoError.errorString "bad key") rfl).1,
    (C17_decode_error_returned
      (decodeFails (mkConfig "" (some ["ls"]) none) (GoError.errorString "bad key"))
      "linux" zeroProvisioner [] (mkConfig "" (some ["ls"]) none)
      (GoError.errorString "bad key") rfl).2.1⟩

end ShellLocal
